import Mathlib

/-!
Shallow embedding of `src/combine_data.py` (benchmark CSV/perf-data combiner).

Modelling conventions:
* File contents are given explicitly: a `.csv` file is `Option (List (List String))`
  (`none` models any `pd.read_csv` failure, `some rows` the parsed grid of cells as
  strings); a `.data` file is `Option (List String)` (`none` models an open/read
  error, `some lines` the text lines).
* A pandas row / Python dict is an association list `List (String × Cell)` with
  distinct keys maintained by `updateRow` (Python dict assignment: overwrite in
  place, else append — insertion order preserved).
* Python `float()` is modelled by `pyFloat` over ASCII strings: optional
  whitespace, sign, `inf`/`infinity`/`nan` (case-insensitive), or a decimal
  literal with optional fraction, exponent and underscores between digits; the
  finite values are exact rationals.
* `pd.DataFrame(rows)` keeps the rows and the union of keys in first-appearance
  order; `pd.concat` unions columns; `sort_values` sorts by the lexicographic
  key (machine, query, threads, repetition) — the model assumes those key
  columns hold their standard types (pandas raises on mixed-type comparisons).
-/

namespace CombineData

/-- Result of Python `float()`: a finite rational, a signed infinity, or nan. -/
inductive PyFloat where
  | fin (q : ℚ)
  | inf (pos : Bool)
  | nan
deriving DecidableEq

/-- One cell of a row: a string, a Python int, a Python float, or Python `None`. -/
inductive Cell where
  | str (s : String)
  | int (n : Int)
  | flt (f : PyFloat)
  | null
deriving DecidableEq

/-- A Python dict used as one row: association list with distinct keys. -/
abbrev Row := List (String × Cell)

/-- Python dict assignment `d[k] = v`: overwrite in place, else append at the end. -/
def updateRow : Row → String → Cell → Row
  | [], k, v => [(k, v)]
  | p :: rest, k, v => if p.1 = k then (k, v) :: rest else p :: updateRow rest k v

/-- Python `str.split(sep)` for a one-character separator, on character lists:
empty input gives one empty field, and every separator starts a new field. -/
def splitOnCharList (sep : Char) : List Char → List (List Char)
  | [] => [[]]
  | c :: rest =>
    match splitOnCharList sep rest with
    | h :: t => if c = sep then [] :: h :: t else (c :: h) :: t
    | [] => [[c]]

/-- Python `str.split(sep)` for a one-character separator. -/
def pySplit (sep : Char) (s : String) : List String :=
  (splitOnCharList sep s.data).map String.mk

/-- Python `str.strip()` on a character list: drop whitespace from both ends. -/
def pyStripL (l : List Char) : List Char :=
  ((l.dropWhile Char.isWhitespace).reverse.dropWhile Char.isWhitespace).reverse

/-- Python `str.strip()`. -/
def pyStrip (s : String) : String :=
  String.mk (pyStripL s.data)

/-- Split a character list at the end of its maximal digit-or-underscore prefix. -/
def takeDigitsU (l : List Char) : List Char × List Char :=
  (l.takeWhile (fun c => c.isDigit || c == '_'), l.dropWhile (fun c => c.isDigit || c == '_'))

/-- No two adjacent underscores occur in the list. -/
def noDoubleU : List Char → Bool
  | '_' :: '_' :: _ => false
  | _ :: rest => noDoubleU rest
  | [] => true

/-- The head of the list exists and is a digit. -/
def headDigit : List Char → Bool
  | c :: _ => c.isDigit
  | [] => false

/-- A valid Python `digitpart`: digits with single underscores strictly between digits. -/
def validDigitPart (l : List Char) : Bool :=
  headDigit l && headDigit l.reverse && noDoubleU l

/-- Numeric value of a digit run, ignoring underscores. -/
def digitsValue (l : List Char) : Nat :=
  l.foldl (fun a c => if c == '_' then a else a * 10 + (c.toNat - 48)) 0

/-- Parse a Python `digitpart` prefix: value, number of digits, rest of the input. -/
def parseDigitPart (l : List Char) : Option (Nat × Nat × List Char) :=
  let run := (takeDigitsU l).1
  let rest := (takeDigitsU l).2
  if validDigitPart run then
    some (digitsValue run, (run.filter Char.isDigit).length, rest)
  else
    none

/-- Assemble the rational value of a parsed float literal:
sign, integer part, fraction digits, exponent sign and exponent; the value is
`± (ip + frac / 10 ^ nFrac) · 10 ^ (± ev)` as one normalized fraction. -/
def ratOfParts (pos : Bool) (ip frac nFrac : Nat) (epos : Bool) (ev : Nat) : ℚ :=
  let n : Nat := ip * 10 ^ nFrac + frac
  let num : Int := if pos then (n : Int) else -(n : Int)
  if epos then mkRat (num * (10 : Int) ^ ev) (10 ^ nFrac)
  else mkRat num (10 ^ (nFrac + ev))

/-- Model of Python `float(s)`: `none` when `float` raises `ValueError`. -/
def pyFloat (s : String) : Option PyFloat :=
  let cs := pyStripL s.data
  let sgn : Bool × List Char :=
    match cs with
    | '+' :: r => (true, r)
    | '-' :: r => (false, r)
    | _ => (true, cs)
  let pos := sgn.1
  let body := sgn.2
  let low := body.map Char.toLower
  if low = "inf".data ∨ low = "infinity".data then some (PyFloat.inf pos)
  else if low = "nan".data then some PyFloat.nan
  else
    let ipp : Nat × Nat × List Char :=
      match parseDigitPart body with
      | some x => x
      | none => (0, 0, body)
    let ip := ipp.1
    let nInt := ipp.2.1
    let r1 := ipp.2.2
    let frp : Nat × Nat × List Char :=
      match r1 with
      | '.' :: r =>
        (match parseDigitPart r with
         | some x => x
         | none => (0, 0, r))
      | _ => (0, 0, r1)
    let frac := frp.1
    let nFrac := frp.2.1
    let r2 := frp.2.2
    if nInt + nFrac = 0 then none
    else
      match r2 with
      | [] => some (PyFloat.fin (ratOfParts pos ip frac nFrac true 0))
      | e :: r3 =>
        if e == 'e' || e == 'E' then
          let esgn : Bool × List Char :=
            match r3 with
            | '+' :: r => (true, r)
            | '-' :: r => (false, r)
            | _ => (true, r3)
          match parseDigitPart esgn.2 with
          | some (ev, _, []) => some (PyFloat.fin (ratOfParts pos ip frac nFrac esgn.1 ev))
          | _ => none
        else none

/-- Drop every occurrence of a single quote, keeping all other characters in order
(embeds Python `str.replace` of one character by the empty string). -/
def removeQuotes : List Char → List Char
  | [] => []
  | c :: rest => if c = '\'' then removeQuotes rest else c :: removeQuotes rest

/-- Field cleaning of `parse_perf_semicolon_format` (line 39 of the source):
`p.strip().replace(chr(39), str())` — trim surrounding whitespace, then delete
every single-quote character. -/
def cleanField (s : String) : String :=
  String.mk (removeQuotes (pyStripL s.data))

/-- Value coercion of a cleaned metric value string (lines 44–50 of the source):
`<not supported>` or empty gives `None`; otherwise `float`, with `ValueError`
caught and recorded as `None`. -/
def coerceMetricValue (valStr : String) : Cell :=
  if valStr = "<not supported>" ∨ valStr = "" then Cell.null
  else
    match pyFloat valStr with
    | some f => Cell.flt f
    | none => Cell.null

/-- Process one line of a `.data` file into the running metrics dict
(lines 38–50 of the source): split on `;`, clean every part, and when at least
three parts remain map the metric name (part 2) to the coerced value (part 0). -/
def processLine (m : Row) (line : String) : Row :=
  if 3 ≤ ((pySplit ';' line).map cleanField).length then
    updateRow m (((pySplit ';' line).map cleanField).getD 2 "")
      (coerceMetricValue (((pySplit ';' line).map cleanField).getD 0 ""))
  else m

/-- `parse_perf_semicolon_format`: fold all lines into a metrics dict; a file
that cannot be opened or read (`none`) prints an error and yields the empty dict. -/
def parse_perf_semicolon_format (fileLines : Option (List String)) : Row :=
  match fileLines with
  | none => []
  | some ls => ls.foldl processLine []

/-- Conversion applied to the raw time cell string, following pandas + `float()`:
an empty cell is `NaN` (so `float` succeeds with `nan`); otherwise Python `float`
on the cell text. -/
def csvFloat (s : String) : Option Cell :=
  if pyStripL s.data = [] then some (Cell.flt PyFloat.nan)
  else (pyFloat s).map Cell.flt

/-- Lines 93–94 of the source applied to the raw cells of the first data row:
`float(csv_data.iloc[0, 1])` then `str(csv_data.iloc[0, 0]).strip()`; a failing
float conversion (the `except` path) yields `(none, none)`. -/
def timeAndLabel (tstr : String) (r : List String) : Option Cell × Option String :=
  match csvFloat tstr with
  | none => (none, none)
  | some t => (some t, some (pyStrip (r.getD 0 "")))

/-- One data row of the CSV: `iloc[0, 1]` missing (an `IndexError`, caught)
yields `(none, none)`, otherwise the conversions of `timeAndLabel`. -/
def rowTimeLabel (r : List String) : Option Cell × Option String :=
  match r.get? 1 with
  | none => (none, none)
  | some tstr => timeAndLabel tstr r

/-- The parsed grid after `skiprows=1`: an empty remainder (empty DataFrame or
`EmptyDataError`, both caught) yields `(none, none)`, otherwise only the first
data row is used. -/
def readRows (rows : List (List String)) : Option Cell × Option String :=
  match rows.drop 1 with
  | [] => (none, none)
  | r :: _ => rowTimeLabel r

/-- Lines 89–98 of the source: `pd.read_csv(..., header=None, skiprows=1)` and
use of the first remaining data row. Returns (execution_time, query_label);
a read failure, no data row, a missing second column, or a failing float
conversion gives `(none, none)` — the enclosing `try/except` catches everything. -/
def readFirstDataRow (content : Option (List (List String))) : Option Cell × Option String :=
  match content with
  | none => (none, none)
  | some rows => readRows rows

/-- `re.match` of `r"r(\d+)_(\d+)([hv])_t(\d+)"` against a stem: anchored at the
start only, groups by maximal munch (each `\d+` is followed by a non-digit
literal, so backtracking never shortens a group); characters after the matched
prefix are ignored. Returns (repetition, query, engine char, threads). -/
def matchRunStem (s : String) : Option (Nat × Nat × Char × Nat) :=
  match s.data with
  | 'r' :: r0 =>
    let d1 := r0.takeWhile Char.isDigit
    let r1 := r0.dropWhile Char.isDigit
    if d1 = [] then none
    else
      match r1 with
      | '_' :: r2 =>
        let d2 := r2.takeWhile Char.isDigit
        let r3 := r2.dropWhile Char.isDigit
        if d2 = [] then none
        else
          match r3 with
          | e :: r4 =>
            if e = 'h' ∨ e = 'v' then
              match r4 with
              | '_' :: 't' :: r5 =>
                let d3 := r5.takeWhile Char.isDigit
                if d3 = [] then none
                else some (digitsValue d1, digitsValue d2, e, digitsValue d3)
              | _ => none
            else none
          | [] => none
      | _ => none
  | _ => none

/-- The filename-stem pattern as the spec words it, anchored at BOTH ends: the
whole stem is literal `r`, digits, `_`, digits, `h` or `v`, `_t`, digits —
nothing after the thread-count digits. Stated from the spec for comparison with
the source's `re.match` (which anchors only at the start). -/
def stemMatchesPatternSpec (s : String) : Bool :=
  match s.data with
  | 'r' :: r0 =>
    let d1 := r0.takeWhile Char.isDigit
    let r1 := r0.dropWhile Char.isDigit
    if d1 = [] then false
    else
      match r1 with
      | '_' :: r2 =>
        let d2 := r2.takeWhile Char.isDigit
        let r3 := r2.dropWhile Char.isDigit
        if d2 = [] then false
        else
          match r3 with
          | e :: '_' :: 't' :: r5 =>
            (e == 'h' || e == 'v') && r5 ≠ [] && r5.all Char.isDigit
          | _ => false
      | _ => false
  | _ => false

/-- Engine code mapping of line 110: `'vectorwise' if eng == 'v' else 'hyper'`. -/
def engineName (e : Char) : String :=
  if e = 'v' then "vectorwise" else "hyper"

/-- `pathlib.Path.stem` for a name ending in `.csv`: drop the final suffix. -/
def stemOf (fname : String) : String :=
  String.mk (fname.data.take (fname.data.length - 4))

/-- `Path.glob` with pattern `*.csv`: names ending in `.csv`, hidden files excluded. -/
def globCsv (fname : String) : Bool :=
  (fname.data.reverse.take 4 == ['v', 's', 'c', '.']) &&
    (match fname.data with
     | '.' :: _ => false
     | _ => true)

/-- A directory as `build_combined_dataframe` sees it: the final path segment of
the resolved directory, the `.csv` files (name and parse outcome) and the
`.data` files (name and read outcome, `none` = unreadable). -/
structure DirFS where
  name : String
  csvFiles : List (String × Option (List (List String)))
  dataFiles : List (String × Option (List String))

/-- Lines 101–102 of the source: look for `<stem>.data`; parse it when it
exists, otherwise use the empty dict. -/
def perfForStem (dir : DirFS) (stem : String) : Row :=
  match dir.dataFiles.lookup (stem ++ ".data") with
  | some c => parse_perf_semicolon_format c
  | none => []

/-- Lines 88–116 of the source: build the row dict for one matched CSV file —
base fields from directory and regex groups, then `row.update(perf_data)`. -/
def rowForFile (machine compiler : String) (dir : DirFS) (fname : String)
    (content : Option (List (List String))) (rep q : Nat) (e : Char) (thr : Nat) : Row :=
  let tl := readFirstDataRow content
  let lblCell : Cell := match tl.2 with
    | some s => Cell.str s
    | none => Cell.null
  let timeCell : Cell := match tl.1 with
    | some c => c
    | none => Cell.null
  let base : Row :=
    [("machine", Cell.str machine), ("compiler", Cell.str compiler),
     ("repetition", Cell.int rep), ("query", Cell.int q),
     ("engine", Cell.str (engineName e)), ("threads", Cell.int thr),
     ("query_label", lblCell), ("time", timeCell)]
  (perfForStem dir (stemOf fname)).foldl (fun r kv => updateRow r kv.1 kv.2) base

/-- A pandas DataFrame: column names (first-appearance order) and rows. -/
structure DF where
  cols : List String
  rows : List Row
deriving DecidableEq

/-- Column union, keeping the left order and appending new names on the right. -/
def unionCols (a b : List String) : List String :=
  a ++ b.filter (fun c => !(a.contains c))

/-- `pd.DataFrame(rows)`: columns are the union of the dict keys in
first-appearance order. -/
def dfOfRows (rows : List Row) : DF :=
  ⟨rows.foldl (fun acc r => unionCols acc (r.map Prod.fst)) [], rows⟩

/-- `build_combined_dataframe` (lines 55–118): split the directory name on `_`
(machine and compiler; fewer than two pieces raises `IndexError`), glob the
`.csv` files, keep those whose stem matches the filename regex, and emit one
row per match. -/
def build_combined_dataframe (dir : DirFS) : Except String DF :=
  let pieces := pySplit '_' dir.name
  match pieces.get? 1 with
  | none => Except.error "IndexError: list index out of range"
  | some compiler =>
    let machine := pieces.headI
    let rows := (dir.csvFiles.filter (fun f => globCsv f.1)).foldl
      (fun acc f =>
        match matchRunStem (stemOf f.1) with
        | none => acc
        | some (rep, q, e, thr) =>
          acc ++ [rowForFile machine compiler dir f.1 f.2 rep q e thr]) []
    Except.ok (dfOfRows rows)

/-- String value of a row's cell (used for the `machine` sort column). -/
def getStrCell (r : Row) (k : String) : String :=
  match r.lookup k with
  | some (Cell.str s) => s
  | _ => ""

/-- Integer value of a row's cell (used for the numeric sort columns). -/
def getIntCell (r : Row) (k : String) : Int :=
  match r.lookup k with
  | some (Cell.int n) => n
  | _ => 0

/-- The `sort_values` key of line 150: (machine, query, threads, repetition),
ordered lexicographically. -/
def rowKey (r : Row) : Lex (String × Lex (Int × Lex (Int × Int))) :=
  toLex (getStrCell r "machine",
    toLex (getIntCell r "query", toLex (getIntCell r "threads", getIntCell r "repetition")))

/-- Row comparison used by the final sort: lexicographic on
(machine, query, threads, repetition). -/
def rowLe (a b : Row) : Prop := rowKey a ≤ rowKey b

instance : DecidableRel rowLe := fun a b => inferInstanceAs (Decidable (rowKey a ≤ rowKey b))

instance : IsTotal Row rowLe := ⟨fun a b => le_total (rowKey a) (rowKey b)⟩

instance : IsTrans Row rowLe := ⟨fun _ _ _ hab hbc => le_trans hab hbc⟩

/-- `final_df.sort_values(by=[machine, query, threads, repetition])`: sort the
rows ascending by `rowKey`; columns unchanged. -/
def sortDF (df : DF) : DF :=
  ⟨df.cols, List.insertionSort rowLe df.rows⟩

/-- `pd.concat([existing, new], ignore_index=True)`: rows appended, columns
unioned (missing cells are absent, not an error). -/
def concatDF (a b : DF) : DF :=
  ⟨unionCols a.cols b.cols, a.rows ++ b.rows⟩

/-- The `__main__` block (lines 135–155): given the newly parsed table, the
state of the output file (`none` = does not exist, `some none` = exists but
empty so `read_csv` raises `EmptyDataError`, `some (some df)` = loads as `df`)
and the append flag, return the table written to the output path, or `none`
when nothing is written ("No valid file pairs found."). -/
def outputWriter (newDf : DF) (existingFile : Option (Option DF)) (append : Bool) :
    Option DF :=
  if newDf.rows = [] then none
  else
    let final :=
      if append then
        match existingFile with
        | some (some edf) => concatDF edf newDf
        | some none => newDf
        | none => newDf
      else newDf
    some (sortDF final)

/-! Concrete inputs used as witnesses and counterexamples. -/

/-- A directory whose single CSV stem carries trailing characters after the
thread-count digits. -/
def trailDir : DirFS := ⟨"m1_gcc9", [("r2_14h_t8x.csv", none)], []⟩

/-- A metric name with an interior single quote, built character by character. -/
def quotedName : String := String.mk ['a', '\'', 'b']

/-- A `.data` line whose metric-name field has an interior single quote. -/
def line0 : String := String.mk ['1', ';', 'u', ';', 'a', '\'', 'b']

/-- A directory where the companion `.data` file overwrites the base columns
`time` and `machine` of the first run, while the second run has no companion. -/
def overwriteDir : DirFS :=
  ⟨"m1_gcc9",
   [("r1_5h_t4.csv", some [["lbl", "t"], ["Q5", "123.4"]]),
    ("r2_5h_t4.csv", some [["lbl", "t"], ["Q5", "100.0"]])],
   [("r1_5h_t4.data", some ["99.5;ns;time", "7.0;x;machine"])]⟩

/-- The rows built from `overwriteDir`. -/
def overwriteRows : List Row :=
  match build_combined_dataframe overwriteDir with
  | Except.ok df => df.rows
  | Except.error _ => []

/-- A one-row, one-column table used to exercise the output writer. -/
def newDf0 : DF := ⟨["machine"], [[("machine", Cell.str "m")]]⟩

/-- A directory whose only `.data` file exists but cannot be read. -/
def unreadDir : DirFS := ⟨"m1_gcc9", [], [("r1_5h_t4.data", none)]⟩

/-! Helper lemmas. -/

/-- Looking up the assigned key after a dict assignment yields the assigned value. -/
theorem lookup_updateRow (r : Row) (k : String) (v : Cell) :
    (updateRow r k v).lookup k = some v := by
  induction r with
  | nil => simp [updateRow, List.lookup]
  | cons p rest ih =>
    by_cases h : p.1 = k
    · simp [updateRow, h, List.lookup]
    · have h' : (k == p.1) = false := beq_eq_false_iff_ne.mpr (Ne.symm h)
      simp [updateRow, h, List.lookup, h', ih]

/-- `removeQuotes` is the filter that drops exactly the single-quote characters. -/
theorem removeQuotes_eq_filter (l : List Char) :
    removeQuotes l = l.filter (fun c => c != '\'') := by
  induction l with
  | nil => rfl
  | cons c rest ih =>
    by_cases h : c = '\''
    · simp [removeQuotes, h, List.filter_cons, ih]
    · simp [removeQuotes, h, List.filter_cons, bne_iff_ne, ih]

/-- Unioning a column list with itself changes nothing. -/
theorem unionCols_self (a : List String) : unionCols a a = a := by
  unfold unionCols
  have hf : a.filter (fun c => !(a.contains c)) = [] := by
    apply List.filter_eq_nil_iff.mpr
    intro c hc
    simp [List.contains, hc]
  rw [hf, List.append_nil]

/-! Claim theorems. -/

/-- Claim C2: for every `.data` line with at least three `;`-separated fields,
the parser records for the metric name (cleaned field 2) exactly: `None` when
the cleaned value string (field 0) is `<not supported>` or empty, `None` when
float parsing fails, and otherwise the parsed float value — no parse failure
aborts the operation (the function is total). -/
theorem metric_value_coercion (m : Row) (line : String)
    (h3 : 3 ≤ ((pySplit ';' line).map cleanField).length) :
    (processLine m line).lookup (((pySplit ';' line).map cleanField).getD 2 "") =
      some (if ((pySplit ';' line).map cleanField).getD 0 "" = "<not supported>"
               ∨ ((pySplit ';' line).map cleanField).getD 0 "" = "" then Cell.null
            else
              match pyFloat (((pySplit ';' line).map cleanField).getD 0 "") with
              | some f => Cell.flt f
              | none => Cell.null) := by
  unfold processLine
  rw [if_pos h3]
  exact lookup_updateRow m _ _

/-- Witness for C2: the spec example line `12.5;unit;metric_x` yields
`metric_x ↦ 12.5` (= 25/2 exactly). -/
theorem metric_value_coercion_witness :
    3 ≤ ((pySplit ';' "12.5;unit;metric_x").map cleanField).length ∧
    (processLine [] "12.5;unit;metric_x").lookup
        (((pySplit ';' "12.5;unit;metric_x").map cleanField).getD 2 "") =
      some (if ((pySplit ';' "12.5;unit;metric_x").map cleanField).getD 0 "" = "<not supported>"
               ∨ ((pySplit ';' "12.5;unit;metric_x").map cleanField).getD 0 "" = "" then Cell.null
            else
              match pyFloat (((pySplit ';' "12.5;unit;metric_x").map cleanField).getD 0 "") with
              | some f => Cell.flt f
              | none => Cell.null) :=
  ⟨by decide, metric_value_coercion [] "12.5;unit;metric_x" (by decide)⟩

/-- Claim C3, counterexample: field cleaning does NOT preserve interior single
quotes — the name field `a'b` of a well-formed line is recorded as `ab`, and
the claimed name `a'b` is absent from the parsed mapping. -/
theorem interior_quote_not_preserved :
    cleanField quotedName = "ab" ∧
    cleanField quotedName ≠ quotedName ∧
    (processLine [] line0).lookup quotedName = none ∧
    (processLine [] line0).lookup "ab" = some (Cell.flt (PyFloat.fin (mkRat 1 1))) := by
  decide

/-- Claim C3, amended: cleaning a field strips the surrounding whitespace and
then removes EVERY single-quote character, interior ones included; all other
characters (including interior whitespace) are kept in order. -/
theorem clean_field_trims_and_removes_all_quotes (s : String) :
    cleanField s = String.mk ((pyStripL s.data).filter (fun c => c != '\'')) := by
  unfold cleanField
  rw [removeQuotes_eq_filter]

/-- Claim C7: a metrics file that exists but cannot be opened or read yields the
empty mapping, both for `parse_perf_semicolon_format` itself and for the
per-stem lookup the directory scan performs — the scan proceeds as if the file
had no metrics, and the (total) parser never propagates an exception. -/
theorem unreadable_metrics_empty_map (dir : DirFS) (stem : String)
    (h : dir.dataFiles.lookup (stem ++ ".data") = some none) :
    parse_perf_semicolon_format none = [] ∧ perfForStem dir stem = [] := by
  refine ⟨rfl, ?_⟩
  unfold perfForStem
  rw [h]
  rfl

/-- Witness for C7: a directory whose only `.data` file is unreadable
contributes no metrics. -/
theorem unreadable_metrics_empty_map_witness :
    unreadDir.dataFiles.lookup ("r1_5h_t4" ++ ".data") = some none ∧
    parse_perf_semicolon_format none = [] ∧ perfForStem unreadDir "r1_5h_t4" = [] :=
  ⟨by decide, unreadable_metrics_empty_map unreadDir "r1_5h_t4" (by decide)⟩

/-- Claim C8: when the newly parsed table is empty, nothing is written —
the output writer reports no valid file pairs and leaves any existing output
file untouched (its result is `none` for every existing-file state and flag). -/
theorem empty_new_table_writes_nothing (newDf : DF) (existingFile : Option (Option DF))
    (append : Bool) (h : newDf.rows = []) :
    outputWriter newDf existingFile append = none := by
  unfold outputWriter
  rw [if_pos h]

/-- Witness for C8: an empty parse over an existing non-empty output file with
the append flag set writes nothing. -/
theorem empty_new_table_writes_nothing_witness :
    (DF.mk [] []).rows = [] ∧
    outputWriter (DF.mk [] []) (some (some newDf0)) true = none :=
  ⟨rfl, empty_new_table_writes_nothing (DF.mk [] []) (some (some newDf0)) true rfl⟩

/-- Claim C10: for every directory whose (resolved) final path segment has at
least two `_`-separated pieces, `build_combined_dataframe` returns a table —
it is total, every per-file parse failure having been absorbed into the row
fields, so no exception escapes whatever the `.csv` and `.data` contents are. -/
theorem build_total_on_valid_dirname (dir : DirFS)
    (h : 2 ≤ (pySplit '_' dir.name).length) :
    ∃ df, build_combined_dataframe dir = Except.ok df := by
  obtain ⟨c, hc⟩ : ∃ c, (pySplit '_' dir.name).get? 1 = some c := by
    cases hg : (pySplit '_' dir.name).get? 1 with
    | none => exact absurd (List.get?_eq_none.mp hg) (by omega)
    | some c => exact ⟨c, rfl⟩
  simp only [build_combined_dataframe, hc]
  exact ⟨_, rfl⟩

/-- Witness for C10: a directory with machine and compiler segments and
arbitrary broken contents builds successfully. -/
theorem build_total_on_valid_dirname_witness :
    2 ≤ (pySplit '_' "m1_gcc9").length ∧
    ∃ df, build_combined_dataframe
        ⟨"m1_gcc9", [("r1_5h_t4.csv", none)], [("r1_5h_t4.data", none)]⟩ = Except.ok df :=
  ⟨by decide, build_total_on_valid_dirname
    ⟨"m1_gcc9", [("r1_5h_t4.csv", none)], [("r1_5h_t4.data", none)]⟩ (by decide)⟩

/-- Claim C1, counterexample: the code anchors the filename pattern only at the
START of the stem (`re.match`), so the stem `r2_14h_t8x` — which does NOT match
the spec's fixed pattern, having a trailing `x` after the thread-count digits —
still yields a RunRow. -/
theorem row_emitted_without_full_stem_match :
    stemMatchesPatternSpec (stemOf "r2_14h_t8x.csv") = false ∧
    ∃ df, build_combined_dataframe trailDir = Except.ok df ∧ df.rows.length = 1 := by
  exact ⟨by decide, ⟨_, rfl, rfl⟩⟩

/-- Claim C1, amended: a `.csv` file directly inside the source directory yields
a RunRow if and only if some PREFIX of its filename stem matches the fixed
pattern (Python `re.match` semantics; trailing characters after the thread-count
digits are ignored); matching files take repetition, query and threads as
integers from the digit groups and the engine is mapped `v` to "vectorwise" and
`h` to "hyper"; non-matching files are silently skipped with no row and no
error. -/
theorem run_row_iff_stem_prefix_match (dirName fname : String)
    (content : Option (List (List String)))
    (hglob : globCsv fname = true)
    (hname : 2 ≤ (pySplit '_' dirName).length) :
    ∃ df, build_combined_dataframe ⟨dirName, [(fname, content)], []⟩ = Except.ok df ∧
      (matchRunStem (stemOf fname) = none → df.rows = []) ∧
      (∀ rep q e thr, matchRunStem (stemOf fname) = some (rep, q, e, thr) →
        ∃ r, df.rows = [r] ∧
          r.lookup "repetition" = some (Cell.int rep) ∧
          r.lookup "query" = some (Cell.int q) ∧
          r.lookup "threads" = some (Cell.int thr) ∧
          r.lookup "engine" =
            some (Cell.str (if e = 'v' then "vectorwise" else "hyper"))) := by
  obtain ⟨c, hc⟩ : ∃ c, (pySplit '_' dirName).get? 1 = some c := by
    cases hg : (pySplit '_' dirName).get? 1 with
    | none => exact absurd (List.get?_eq_none.mp hg) (by omega)
    | some c => exact ⟨c, rfl⟩
  simp only [build_combined_dataframe, hc, List.filter_cons, hglob, if_true,
    List.filter_nil, List.foldl_cons, List.foldl_nil]
  cases hm : matchRunStem (stemOf fname) with
  | none =>
    exact ⟨_, rfl, fun _ => rfl, fun rep q e thr hsome => Option.noConfusion hsome⟩
  | some g =>
    obtain ⟨rep₀, q₀, e₀, thr₀⟩ := g
    refine ⟨_, rfl, fun hnone => Option.noConfusion hnone, fun rep q e thr hsome => ?_⟩
    simp only [Option.some.injEq, Prod.mk.injEq] at hsome
    obtain ⟨rfl, rfl, rfl, rfl⟩ := hsome
    exact ⟨_, rfl, rfl, rfl, rfl, rfl⟩

/-- Witness for C1: a single well-formed pair name in a valid directory yields
exactly the row described by the groups of its stem. -/
theorem run_row_iff_stem_prefix_match_witness :
    globCsv "r1_5h_t4.csv" = true ∧ 2 ≤ (pySplit '_' "m1_gcc9").length ∧
    ∃ df, build_combined_dataframe ⟨"m1_gcc9", [("r1_5h_t4.csv", none)], []⟩ = Except.ok df ∧
      (matchRunStem (stemOf "r1_5h_t4.csv") = none → df.rows = []) ∧
      (∀ rep q e thr, matchRunStem (stemOf "r1_5h_t4.csv") = some (rep, q, e, thr) →
        ∃ r, df.rows = [r] ∧
          r.lookup "repetition" = some (Cell.int rep) ∧
          r.lookup "query" = some (Cell.int q) ∧
          r.lookup "threads" = some (Cell.int thr) ∧
          r.lookup "engine" =
            some (Cell.str (if e = 'v' then "vectorwise" else "hyper"))) :=
  ⟨by decide, by decide,
    run_row_iff_stem_prefix_match "m1_gcc9" "r1_5h_t4.csv" none (by decide) (by decide)⟩

/-- Claim C4: for a matching CSV file only the first data row after the skipped
first line is used — query_label is column 0 as a stripped string and time is
column 1 through `float`; when there is no data row after the skipped header,
the row lacks a second column, or the float conversion fails, both results are
absent and nothing is raised (the reader is total). -/
theorem csv_first_row_semantics (content : List (List String)) :
    (content.drop 1 = [] → readFirstDataRow (some content) = (none, none)) ∧
    (∀ r rest, content.drop 1 = r :: rest →
      (r.get? 1 = none → readFirstDataRow (some content) = (none, none)) ∧
      (∀ tstr, r.get? 1 = some tstr →
        (csvFloat tstr = none → readFirstDataRow (some content) = (none, none)) ∧
        (∀ t, csvFloat tstr = some t →
          readFirstDataRow (some content) = (some t, some (pyStrip (r.getD 0 "")))))) := by
  refine ⟨fun h => ?_, fun r rest h => ⟨fun h1 => ?_, fun tstr h1 => ⟨fun h2 => ?_, fun t h2 => ?_⟩⟩⟩
  · show readRows content = (none, none)
    unfold readRows
    rw [h]
  · show readRows content = (none, none)
    unfold readRows
    rw [h]
    show rowTimeLabel r = (none, none)
    unfold rowTimeLabel
    rw [h1]
  · show readRows content = (none, none)
    unfold readRows
    rw [h]
    show rowTimeLabel r = (none, none)
    unfold rowTimeLabel
    rw [h1]
    show timeAndLabel tstr r = (none, none)
    unfold timeAndLabel
    rw [h2]
  · show readRows content = (some t, some (pyStrip (r.getD 0 "")))
    unfold readRows
    rw [h]
    show rowTimeLabel r = (some t, some (pyStrip (r.getD 0 "")))
    unfold rowTimeLabel
    rw [h1]
    show timeAndLabel tstr r = (some t, some (pyStrip (r.getD 0 "")))
    unfold timeAndLabel
    rw [h2]

/-- Witness for C4: the spec's end-to-end file (`header` + `Q5,123.4`) gives
query_label `Q5` and time 123.4 = 617/5. -/
theorem csv_first_row_semantics_witness :
    ([["lbl", "t"], ["Q5", "123.4"]].drop 1 = [["Q5", "123.4"]] ∧
     (["Q5", "123.4"] : List String).get? 1 = some "123.4" ∧
     csvFloat "123.4" = some (Cell.flt (PyFloat.fin (mkRat 617 5)))) ∧
    readFirstDataRow (some [["lbl", "t"], ["Q5", "123.4"]]) =
      (some (Cell.flt (PyFloat.fin (mkRat 617 5))), some (pyStrip "Q5")) :=
  ⟨⟨rfl, rfl, by decide⟩,
    (((csv_first_row_semantics [["lbl", "t"], ["Q5", "123.4"]]).2
      ["Q5", "123.4"] [] rfl).2 "123.4" rfl).2 (Cell.flt (PyFloat.fin (mkRat 617 5)))
      (by decide)⟩

/-- Claim C5: writing a non-empty newly parsed table and then running again with
the append flag against that same written table yields exactly twice the row
count and the same column list (and the first write preserves the column list
too). -/
theorem append_roundtrip_doubles_rows (newDf w : DF)
    (hne : newDf.rows ≠ [])
    (hw : outputWriter newDf none false = some w) :
    ∃ final, outputWriter newDf (some (some w)) true = some final ∧
      final.rows.length = 2 * newDf.rows.length ∧
      final.cols = newDf.cols ∧ w.cols = newDf.cols := by
  have hw' : w = sortDF newDf := by
    unfold outputWriter at hw
    rw [if_neg hne] at hw
    exact (Option.some.inj hw).symm
  subst hw'
  refine ⟨sortDF (concatDF (sortDF newDf) newDf), ?_, ?_, ?_, rfl⟩
  · unfold outputWriter
    rw [if_neg hne]
    rfl
  · show (List.insertionSort rowLe (concatDF (sortDF newDf) newDf).rows).length
        = 2 * newDf.rows.length
    rw [(List.perm_insertionSort rowLe _).length_eq]
    show (List.insertionSort rowLe newDf.rows ++ newDf.rows).length = 2 * newDf.rows.length
    rw [List.length_append, (List.perm_insertionSort rowLe _).length_eq]
    omega
  · show unionCols newDf.cols newDf.cols = newDf.cols
    exact unionCols_self newDf.cols

/-- Witness for C5: a one-row table appended onto its own written output gives
two rows over the same single column. -/
theorem append_roundtrip_doubles_rows_witness :
    newDf0.rows ≠ [] ∧ outputWriter newDf0 none false = some (sortDF newDf0) ∧
    ∃ final, outputWriter newDf0 (some (some (sortDF newDf0))) true = some final ∧
      final.rows.length = 2 * newDf0.rows.length ∧
      final.cols = newDf0.cols ∧ (sortDF newDf0).cols = newDf0.cols :=
  ⟨by decide, rfl, append_roundtrip_doubles_rows newDf0 (sortDF newDf0) (by decide) rfl⟩

/-- Claim C6: whenever the program writes the final table — appending to an
existing output file or writing fresh — the written rows are sorted ascending
by the lexicographic key (machine, query, threads, repetition). -/
theorem written_table_sorted (newDf : DF) (existingFile : Option (Option DF)) (append : Bool)
    (w : DF) (h : outputWriter newDf existingFile append = some w) :
    List.Sorted rowLe w.rows := by
  unfold outputWriter at h
  by_cases he : newDf.rows = []
  · rw [if_pos he] at h
    exact Option.noConfusion h
  · rw [if_neg he] at h
    have h2 := Option.some.inj h
    subst h2
    exact List.sorted_insertionSort rowLe _

/-- Witness for C6: a concrete fresh write is sorted. -/
theorem written_table_sorted_witness :
    outputWriter newDf0 none false = some (sortDF newDf0) ∧
    List.Sorted rowLe (sortDF newDf0).rows :=
  ⟨rfl, written_table_sorted newDf0 none false (sortDF newDf0) rfl⟩

/-- Claim C9: a companion metric named like a base column overwrites the base
field — in `overwriteDir` the first row's `time` becomes the metric value 99.5
(differing from its CSV execution time 123.4) and its `machine` becomes the
float 7.0, so the two rows of one scan do not share the same machine value. -/
theorem metrics_overwrite_base_columns :
    (readFirstDataRow (some [["lbl", "t"], ["Q5", "123.4"]])).1
        = some (Cell.flt (PyFloat.fin (mkRat 617 5))) ∧
    (overwriteRows.getD 0 []).lookup "time" = some (Cell.flt (PyFloat.fin (mkRat 199 2))) ∧
    (overwriteRows.getD 0 []).lookup "machine" = some (Cell.flt (PyFloat.fin (mkRat 7 1))) ∧
    (overwriteRows.getD 1 []).lookup "machine" = some (Cell.str "m1") ∧
    (overwriteRows.getD 0 []).lookup "time"
        ≠ (readFirstDataRow (some [["lbl", "t"], ["Q5", "123.4"]])).1 ∧
    (overwriteRows.getD 0 []).lookup "machine"
        ≠ (overwriteRows.getD 1 []).lookup "machine" := by
  decide

end CombineData
